import Mathlib

/-!
Shallow embedding of `src/index.js` of print-n-play-tile-extractor.

Terrain states are the strings "0".."3" exactly as produced by `STATE_ENUM`
(`Object.fromEntries([...].map((v, i) => [v, i.toString()]))`).  A tile is a
matrix of state strings (`List (List String)`), a map a grid of tiles.  The
HMAC-SHA256 primitive from `node:crypto` is an external collaborator of the
repository and is abstracted as a function parameter `digest`; everything the
repository itself computes around it (`createHash`, flattening, truncation,
counting, probing, report and rule generation) is embedded from the source.
JS array indexing that can return `undefined` is modelled with `List.get?`.
-/

/-- Source `STATE_ENUM.NOTHING` (index 0 stringified). -/
def STATE_NOTHING : String := "0"

/-- Source `STATE_ENUM.WALL`. -/
def STATE_WALL : String := "1"

/-- Source `STATE_ENUM.PATH`. -/
def STATE_PATH : String := "2"

/-- Source `STATE_ENUM.START`. -/
def STATE_START : String := "3"

/-- A tile: matrix of state strings (4 rows of 8 columns in the pipeline). -/
abbrev Tile := List (List String)

/-- A map: grid of tiles (7 rows of 5 columns in the pipeline). -/
abbrev GameMap := List (List Tile)

/-- Source constant `EMPTY_TILE_HASH`. -/
def EMPTY_TILE_HASH : String := "f2d675f2"

/-- Source constant `START_TILE_HASH`. -/
def START_TILE_HASH : String := "f420ed87"

/-- Source constant `MAP_HEIGHT_IN_TILES`. -/
def MAP_HEIGHT_IN_TILES : Nat := 7

/-- Source constant `MAP_WIDTH_IN_TILES`. -/
def MAP_WIDTH_IN_TILES : Nat := 5

/-- Source constant `TILE_HEIGHT_IN_PIXELS`. -/
def TILE_HEIGHT_IN_PIXELS : Nat := 4

/-- Source constant `TILE_WIDTH_IN_PIXELS`. -/
def TILE_WIDTH_IN_PIXELS : Nat := 8

/-- Source constant `MAP_WIDTH_IN_PIXELS = TILE_WIDTH_IN_PIXELS * MAP_WIDTH_IN_TILES`. -/
def MAP_WIDTH_IN_PIXELS : Nat := TILE_WIDTH_IN_PIXELS * MAP_WIDTH_IN_TILES

/-- Source constant `TILES_PER_MAP = MAP_HEIGHT_IN_TILES * MAP_WIDTH_IN_TILES`. -/
def TILES_PER_MAP : Nat := MAP_HEIGHT_IN_TILES * MAP_WIDTH_IN_TILES

/-- JS `s.includes(c)` for a single-character needle, as used on direction labels. -/
def hasChar (s : String) (c : Char) : Bool := s.data.contains c

/-- JS `tile[i][j] === STATE_ENUM.PATH`: probe the pixel at row `i`, column `j`.
Out-of-range indices model JS `undefined`, which never equals a state string. -/
def probe (t : Tile) (i j : Nat) : Bool :=
  decide (((t.get? i).bind fun row => row.get? j) = some STATE_PATH)

/-- The `pathDict` object built by `getTilePaths`: one Boolean per direction key;
a key absent from the JS object (falsy `undefined`) is modelled as `false`. -/
structure Paths where
  n : Bool
  w : Bool
  s : Bool
  e : Bool

/-- Non-start branch of source `getTilePaths` (lines 231-244): the six
`CONNECTIONS` entries `[j, i, d]` probe `tile[i][j]` and set `pathDict[d]`,
so key n is set by `tile[0][1]` or `tile[0][5]`, key e by `tile[2][0]`,
key w by `tile[2][7]`, key s by `tile[3][1]` or `tile[3][5]`. -/
def getTilePathsT (t : Tile) : Paths :=
  { n := probe t 0 1 || probe t 0 5
    w := probe t 2 7
    s := probe t 3 1 || probe t 3 5
    e := probe t 2 0 }

/-- Source `getTilePaths` (lines 227-245); `tilesDict` is the hash-to-tile
object, modelled as a total function (every hash the pipeline feeds in is a
key of the object). -/
def getTilePaths (tilesDict : String → Tile) (tileHash : String) : Paths :=
  if tileHash = START_TILE_HASH then { n := true, w := true, s := true, e := true }
  else getTilePathsT (tilesDict tileHash)

/-- The `Object.keys(pathDict)` list built inside source `tileHasExit`
(lines 251-263): matched labels in `CONNECTIONS` insertion order, where
entry `[j, i, d]` contributes label `d` when `tile[i][j]` is PATH. -/
def matchedLabels (t : Tile) : List String :=
  (if probe t 0 1 then ["ne"] else []) ++
  (if probe t 0 5 then ["nw"] else []) ++
  (if probe t 2 0 then ["e"] else []) ++
  (if probe t 2 7 then ["w"] else []) ++
  (if probe t 3 1 then ["se"] else []) ++
  (if probe t 3 5 then ["sw"] else [])

/-- Non-start branch of source `tileHasExit` (lines 250-271): the precedence
cascade over the matched labels, falling through to `tile[1][3] === PATH`. -/
def tileHasExitT (t : Tile) : Bool :=
  let paths := matchedLabels t
  if 2 < paths.length then true
  else if paths.length = 1 then false
  else if paths.all (fun p => hasChar p 'n') then false
  else if paths.all (fun p => hasChar p 's') then false
  else if paths.all (fun p => hasChar p 'e') then true
  else if paths.all (fun p => hasChar p 'w') then true
  else probe t 1 3

/-- Source `tileHasExit` (lines 246-272). -/
def tileHasExit (tilesDict : String → Tile) (tileHash : String) : Bool :=
  if tileHash = START_TILE_HASH then true
  else tileHasExitT (tilesDict tileHash)

/-- The neighbor-grid coordinates `(row, col)` read by the reveal-rule loop
(source lines 330-344) for a tile occurrence at row `j`, column `i`, in source
order: key n reads `[j-1][i]` ("Ao norte"), key w reads `[j][i+1]` ("Ao
leste"), key s reads `[j+1][i]` ("Ao sul"), key e reads `[j][i-1]` ("Ao
oeste").  Integer coordinates expose reads outside the grid. -/
def revealNeighborAccesses (p : Paths) (j i : Int) : List (Int × Int) :=
  (if p.n then [(j - 1, i)] else []) ++
  (if p.w then [(j, i + 1)] else []) ++
  (if p.s then [(j + 1, i)] else []) ++
  (if p.e then [(j, i - 1)] else [])

/-- Source `createHash` (lines 56-63): keyed digest of the input with the
hard-coded secret, hex-encoded, truncated to the first 8 characters.  The
HMAC-SHA256 primitive lives in `node:crypto`, outside this repository, and is
passed in as `hmacSha256Hex secret input`. -/
def createHash (hmacSha256Hex : String → String → String) (input : String) : String :=
  (hmacSha256Hex "abcdefg" input).take 8

/-- `flat(tile, 2).join('')` (source lines 151-152): the tile's rows are
flattened in row-major order and the state strings concatenated. -/
def tileKey (t : Tile) : String := String.join t.flatten

/-- The TileId of a tile: `createHash(flat(tile, 2).join(''))`. -/
def tileHashOf (digest : String → String → String) (t : Tile) : String :=
  createHash digest (tileKey t)

/-- Source `mapsWithTileHash` (lines 274-278): every tile replaced by its hash. -/
def mapsWithTileHash (digest : String → String → String) (maps : List GameMap) :
    List (List (List String)) :=
  maps.map fun m => m.map fun row => row.map (tileHashOf digest)

/-- JS `maps[mapId][r][c]` with `undefined` as `none`. -/
def getTileAt (maps : List GameMap) (mapId r c : Nat) : Option Tile :=
  ((maps.get? mapId).bind fun m => m.get? r).bind fun row => row.get? c

/-- JS `mapsWithTileHash[mapId][r][c]` with `undefined` as `none`. -/
def getHashAt (hmaps : List (List (List String))) (mapId r c : Nat) : Option String :=
  ((hmaps.get? mapId).bind fun m => m.get? r).bind fun row => row.get? c

/-- Source `readMap` (lines 109-133) minus the file I/O: slice the flat pixel
sequence into a `MAP_HEIGHT_IN_TILES x MAP_WIDTH_IN_TILES` grid of
`TILE_HEIGHT_IN_PIXELS x TILE_WIDTH_IN_PIXELS` tiles.  `mapPixels[pixelIndex]`
on an out-of-range index is JS `undefined`, modelled by `List.get?`; the
source performs no buffer-length validation. -/
def readMap (mapPixels : List String) : List (List (List (List (Option String)))) :=
  (List.range MAP_HEIGHT_IN_TILES).map fun i =>
    (List.range MAP_WIDTH_IN_TILES).map fun j =>
      (List.range TILE_HEIGHT_IN_PIXELS).map fun a =>
        (List.range TILE_WIDTH_IN_PIXELS).map fun b =>
          mapPixels.get?
            (i * MAP_WIDTH_IN_PIXELS * TILE_HEIGHT_IN_PIXELS + j * TILE_WIDTH_IN_PIXELS +
              a * MAP_WIDTH_IN_PIXELS + b)

/-- Four-level lookup into a decoded map: the pixel slot of tile `(i, j)` at
local offset `(a, b)`; `some px` when all four indices are in range. -/
def mapEntry (m : List (List (List (List (Option String))))) (i j a b : Nat) :
    Option (Option String) :=
  ((((m.get? i).bind fun r => r.get? j).bind fun t => t.get? a).bind fun row => row.get? b)

/-- `tiles = flat(maps, 2)` (source line 146): all tiles of all maps, row-major
within each map, in map order. -/
def tilesOf (maps : List GameMap) : List Tile := (maps.map List.flatten).flatten

/-- The hashes of `tiles` in order, as in `hashAndTileList` (lines 150-154). -/
def hashList (digest : String → String → String) (maps : List GameMap) : List String :=
  (tilesOf maps).map (tileHashOf digest)

/-- The per-bucket counting loop of source lines 163-166: walking the hash
list with its running index `i0`, `hashCounts[i0 / TILES_PER_MAP][hash]++`;
this counts, for bucket `q`, the entries with `i0 / TILES_PER_MAP = q` whose
hash equals `x`. -/
def bumpFrom (l : List String) (i0 q : Nat) (x : String) : Nat :=
  match l with
  | [] => 0
  | y :: rest => (if i0 / TILES_PER_MAP = q ∧ y = x then 1 else 0) + bumpFrom rest (i0 + 1) q x

/-- `hashCounts[q][x]` after the counting pass (source lines 160-166). -/
def hashCounts (digest : String → String → String) (maps : List GameMap) (q : Nat)
    (x : String) : Nat :=
  bumpFrom (hashList digest maps) 0 q x

/-- JS `Math.max(...)` over a list of per-map counts; for the nonempty lists of
naturals produced by the pipeline this is their maximum. -/
def mathMax (l : List Nat) : Nat := l.foldr max 0

/-- `hashCount[x]` (source lines 167-169): the maximum of `hashCounts[q][x]`
over the per-map counters `q`. -/
def hashCount (digest : String → String → String) (maps : List GameMap) (x : String) : Nat :=
  mathMax ((List.range maps.length).map fun q => hashCounts digest maps q x)

/-- The comparator of source line 173, `(a, b) => b[1] - a[1]`: `a` sorts no
later than `b` exactly when `b`'s count is at most `a`'s. -/
def countGE (a b : String × Nat) : Prop := b.2 ≤ a.2

instance : DecidableRel countGE := fun a b => Nat.decLe b.2 a.2

instance : IsTotal (String × Nat) countGE := ⟨fun a b => Nat.le_total b.2 a.2⟩

instance : IsTrans (String × Nat) countGE := ⟨fun _ _ _ hab hbc => Nat.le_trans hbc hab⟩

/-- One report line, `` `${hash}: ${count}` `` (source line 174). -/
def fmtEntry (p : String × Nat) : String := p.1 ++ ": " ++ toString p.2

/-- Source lines 171-173: drop the empty tile, sort by descending count.  JS
`Array.prototype.sort` is stable in every engine covered by the spec;
`insertionSort` is the stable sort with the same comparator. -/
def sortedEntries (entries : List (String × Nat)) : List (String × Nat) :=
  (entries.filter fun p => decide (p.1 ≠ EMPTY_TILE_HASH)).insertionSort countGE

/-- Source lines 175-177: sum of the non-empty counts. -/
def totalTiles (entries : List (String × Nat)) : Nat :=
  (entries.filter fun p => decide (p.1 ≠ EMPTY_TILE_HASH)).foldl (fun acc p => acc + p.2) 0

/-- Source lines 171-178: the catalog report text built from the
`Object.entries(hashCount)` pair list. -/
def printCount (entries : List (String × Nat)) : String :=
  "total: " ++ toString (totalTiles entries) ++ "\n\n" ++
    String.intercalate "\n" ((sortedEntries entries).map fmtEntry)

/-- An all-wall row of 8 pixels. -/
def wallRow : List String := List.replicate 8 STATE_WALL

/-- An all-wall 4x8 tile: no probe matches PATH. -/
def wallTile : Tile := List.replicate 4 wallRow

/-- Concrete 4x8 tile: PATH at `(0,1)` (label ne), `(2,7)` (label w) and at the
fall-through coordinate `(1,3)`; wall everywhere else, in particular at the
bottom-row probe coordinates `(3,1)` and `(3,5)` and at the bottom-left corner
`(3,0)`. -/
def tileC3 : Tile :=
  [ [STATE_WALL, STATE_PATH, STATE_WALL, STATE_WALL, STATE_WALL, STATE_WALL, STATE_WALL, STATE_WALL],
    [STATE_WALL, STATE_WALL, STATE_WALL, STATE_PATH, STATE_WALL, STATE_WALL, STATE_WALL, STATE_WALL],
    [STATE_WALL, STATE_WALL, STATE_WALL, STATE_WALL, STATE_WALL, STATE_WALL, STATE_WALL, STATE_PATH],
    [STATE_WALL, STATE_WALL, STATE_WALL, STATE_WALL, STATE_WALL, STATE_WALL, STATE_WALL, STATE_WALL] ]

/-- Concrete 4x8 junction tile: PATH at the probes `(0,1)`, `(2,0)` and
`(2,7)`, so three labels match and the tile is a decision point, with the
north direction open. -/
def tileJunction : Tile :=
  [ [STATE_WALL, STATE_PATH, STATE_WALL, STATE_WALL, STATE_WALL, STATE_WALL, STATE_WALL, STATE_WALL],
    [STATE_WALL, STATE_WALL, STATE_WALL, STATE_WALL, STATE_WALL, STATE_WALL, STATE_WALL, STATE_WALL],
    [STATE_PATH, STATE_WALL, STATE_WALL, STATE_WALL, STATE_WALL, STATE_WALL, STATE_WALL, STATE_PATH],
    [STATE_WALL, STATE_WALL, STATE_WALL, STATE_WALL, STATE_WALL, STATE_WALL, STATE_WALL, STATE_WALL] ]

/-- A 7x5 map with the junction tile in the top-left corner cell and walls
elsewhere. -/
def borderMap : GameMap :=
  (tileJunction :: List.replicate 4 wallTile) :: List.replicate 6 (List.replicate 5 wallTile)

/-- Tiny tile used by the counting example. -/
def tileA : Tile := [["7"]]

/-- Second tiny tile used by the counting example. -/
def tileB : Tile := [["8"]]

/-- Map with 3 occurrences of `tileA` among its 35 tiles. -/
def exMap1 : GameMap := [List.replicate 3 tileA ++ List.replicate 32 tileB]

/-- Map with 5 occurrences of `tileA` among its 35 tiles. -/
def exMap2 : GameMap := [List.replicate 5 tileA ++ List.replicate 30 tileB]

/-- Map with 2 occurrences of `tileA` among its 35 tiles. -/
def exMap3 : GameMap := [List.replicate 2 tileA ++ List.replicate 33 tileB]

/-- Placeholder digest used to instantiate witnesses: any deterministic
function of the secret and the input is enough for the content statements. -/
def exDigest : String → String → String := fun _ s => s

/-- C5: for the start-tile constant TileId, `getTilePaths` returns all four
directions open and `tileHasExit` returns true, for every tile dictionary
whatsoever — no pixel of the tile is ever probed, since the result is
independent of the dictionary contents. -/
theorem c5_start_tile_special_case :
    ∀ tilesDict : String → Tile,
      getTilePaths tilesDict START_TILE_HASH = { n := true, w := true, s := true, e := true } ∧
      tileHasExit tilesDict START_TILE_HASH = true := by
  intro d
  constructor <;> simp [getTilePaths, tileHasExit]

/-- C10: for a non-start, non-empty TileId none of whose six decision-point
probes matches PATH (empty matched-label list), `tileHasExit` returns false:
the empty list falls through the length rules and satisfies the
all-labels-contain-n rule vacuously. -/
theorem c10_empty_probe_set_not_narrated (tilesDict : String → Tile) (h : String)
    (hs : h ≠ START_TILE_HASH) (he : h ≠ EMPTY_TILE_HASH)
    (hm : matchedLabels (tilesDict h) = []) :
    tileHasExit tilesDict h = false := by
  simp [tileHasExit, if_neg hs, tileHasExitT, hm]

/-- C10 witness: the all-wall tile has no matched label, and a non-start,
non-empty id resolving to it is not narrated. -/
theorem c10_witness :
    ("aaaaaaaa" ≠ START_TILE_HASH) ∧ ("aaaaaaaa" ≠ EMPTY_TILE_HASH) ∧
      matchedLabels ((fun _ => wallTile) "aaaaaaaa") = [] ∧
      tileHasExit (fun _ => wallTile) "aaaaaaaa" = false :=
  ⟨by decide, by decide, by decide,
    c10_empty_probe_set_not_narrated (fun _ => wallTile) "aaaaaaaa"
      (by decide) (by decide) (by decide)⟩

/-- C2: for a non-start, non-empty TileId, `tileHasExit` decides by the exact
six-rule precedence over the matched labels: more than 2 labels gives true;
else exactly 1 gives false; else all labels containing n gives false; else all
containing s gives false; else all containing e gives true; else all
containing w gives true — each rule firing only when every earlier one did
not. -/
theorem c2_decision_precedence (tilesDict : String → Tile) (h : String)
    (hs : h ≠ START_TILE_HASH) (he : h ≠ EMPTY_TILE_HASH) :
    (2 < (matchedLabels (tilesDict h)).length → tileHasExit tilesDict h = true) ∧
    (¬ 2 < (matchedLabels (tilesDict h)).length →
      (matchedLabels (tilesDict h)).length = 1 → tileHasExit tilesDict h = false) ∧
    (¬ 2 < (matchedLabels (tilesDict h)).length →
      (matchedLabels (tilesDict h)).length ≠ 1 →
      (∀ l ∈ matchedLabels (tilesDict h), hasChar l 'n' = true) →
      tileHasExit tilesDict h = false) ∧
    (¬ 2 < (matchedLabels (tilesDict h)).length →
      (matchedLabels (tilesDict h)).length ≠ 1 →
      ¬ (∀ l ∈ matchedLabels (tilesDict h), hasChar l 'n' = true) →
      (∀ l ∈ matchedLabels (tilesDict h), hasChar l 's' = true) →
      tileHasExit tilesDict h = false) ∧
    (¬ 2 < (matchedLabels (tilesDict h)).length →
      (matchedLabels (tilesDict h)).length ≠ 1 →
      ¬ (∀ l ∈ matchedLabels (tilesDict h), hasChar l 'n' = true) →
      ¬ (∀ l ∈ matchedLabels (tilesDict h), hasChar l 's' = true) →
      (∀ l ∈ matchedLabels (tilesDict h), hasChar l 'e' = true) →
      tileHasExit tilesDict h = true) ∧
    (¬ 2 < (matchedLabels (tilesDict h)).length →
      (matchedLabels (tilesDict h)).length ≠ 1 →
      ¬ (∀ l ∈ matchedLabels (tilesDict h), hasChar l 'n' = true) →
      ¬ (∀ l ∈ matchedLabels (tilesDict h), hasChar l 's' = true) →
      ¬ (∀ l ∈ matchedLabels (tilesDict h), hasChar l 'e' = true) →
      (∀ l ∈ matchedLabels (tilesDict h), hasChar l 'w' = true) →
      tileHasExit tilesDict h = true) := by
  have hall : ∀ (c : Char),
      ¬ (∀ l ∈ matchedLabels (tilesDict h), hasChar l c = true) →
      ((matchedLabels (tilesDict h)).all fun p => hasChar p c) = false := by
    intro c hc
    cases hb : (matchedLabels (tilesDict h)).all fun p => hasChar p c
    · rfl
    · exact absurd (List.all_eq_true.mp hb) hc
  refine ⟨?_, ?_, ?_, ?_, ?_, ?_⟩
  · intro h1
    simp [tileHasExit, if_neg hs, tileHasExitT, h1]
  · intro h1 h2
    simp [tileHasExit, if_neg hs, tileHasExitT, h1, h2]
  · intro h1 h2 h3
    simp [tileHasExit, if_neg hs, tileHasExitT, h1, h2, List.all_eq_true.mpr h3]
  · intro h1 h2 h3 h4
    simp [tileHasExit, if_neg hs, tileHasExitT, h1, h2, hall 'n' h3,
      List.all_eq_true.mpr h4]
  · intro h1 h2 h3 h4 h5
    simp [tileHasExit, if_neg hs, tileHasExitT, h1, h2, hall 'n' h3, hall 's' h4,
      List.all_eq_true.mpr h5]
  · intro h1 h2 h3 h4 h5 h6
    simp [tileHasExit, if_neg hs, tileHasExitT, h1, h2, hall 'n' h3, hall 's' h4,
      hall 'e' h5, List.all_eq_true.mpr h6]

/-- C2 witness: the junction tile matches three labels, so rule 1 fires for a
non-start, non-empty id resolving to it. -/
theorem c2_witness :
    ("bbbbbbbb" ≠ START_TILE_HASH) ∧ ("bbbbbbbb" ≠ EMPTY_TILE_HASH) ∧
      2 < (matchedLabels ((fun _ => tileJunction) "bbbbbbbb")).length ∧
      tileHasExit (fun _ => tileJunction) "bbbbbbbb" = true :=
  ⟨by decide, by decide, by decide,
    (c2_decision_precedence (fun _ => tileJunction) "bbbbbbbb" (by decide) (by decide)).1
      (by decide)⟩

/-- C3 counterexample: `tileC3` matches exactly the two labels ne and w and
falls through all six precedence rules, yet `tileHasExit` answers true while
the pixel state is not PATH at the sw-labelled probe `(3,5)`, nor at the
geometric bottom-left probe `(3,1)`, nor at the literal south-west corner
`(3,0)` — so the fall-through result is not determined by any south-west
corner probe coordinate. -/
theorem c3_counterexample :
    matchedLabels tileC3 = ["ne", "w"] ∧
    ¬ 2 < (matchedLabels tileC3).length ∧
    (matchedLabels tileC3).length ≠ 1 ∧
    ((matchedLabels tileC3).all fun p => hasChar p 'n') = false ∧
    ((matchedLabels tileC3).all fun p => hasChar p 's') = false ∧
    ((matchedLabels tileC3).all fun p => hasChar p 'e') = false ∧
    ((matchedLabels tileC3).all fun p => hasChar p 'w') = false ∧
    tileHasExit (fun _ => tileC3) "cccccccc" = true ∧
    probe tileC3 3 5 = false ∧
    probe tileC3 3 1 = false ∧
    probe tileC3 3 0 = false := by
  decide

/-- C3 amended: when the matched labels fall through the first six precedence
rules, `tileHasExit` returns true iff the pixel at row 1, column 3 — a fixed
coordinate in the tile's upper middle that is none of the six probes and not a
south-west corner — is PATH. -/
theorem c3_amended_fallthrough (tilesDict : String → Tile) (h : String)
    (hs : h ≠ START_TILE_HASH)
    (h1 : ¬ 2 < (matchedLabels (tilesDict h)).length)
    (h2 : (matchedLabels (tilesDict h)).length ≠ 1)
    (h3 : ((matchedLabels (tilesDict h)).all fun p => hasChar p 'n') = false)
    (h4 : ((matchedLabels (tilesDict h)).all fun p => hasChar p 's') = false)
    (h5 : ((matchedLabels (tilesDict h)).all fun p => hasChar p 'e') = false)
    (h6 : ((matchedLabels (tilesDict h)).all fun p => hasChar p 'w') = false) :
    tileHasExit tilesDict h = probe (tilesDict h) 1 3 := by
  simp [tileHasExit, if_neg hs, tileHasExitT, h1, h2, h3, h4, h5, h6]

/-- C3 witness: the amended fall-through rule evaluated on `tileC3`. -/
theorem c3_witness :
    ("cccccccc" ≠ START_TILE_HASH) ∧
      tileHasExit (fun _ => tileC3) "cccccccc" = probe tileC3 1 3 :=
  ⟨by decide,
    c3_amended_fallthrough (fun _ => tileC3) "cccccccc" (by decide) (by decide)
      (by decide) (by decide) (by decide) (by decide) (by decide)⟩

/-- Membership of the north access in the reveal-rule reads. -/
theorem mem_reveal_north (p : Paths) (j i : Int) :
    ((j - 1, i) ∈ revealNeighborAccesses p j i) ↔ p.n = true := by
  cases hn : p.n <;> cases hw : p.w <;> cases hs : p.s <;> cases he : p.e <;>
    simp [revealNeighborAccesses, hn, hw, hs, he, Prod.ext_iff] <;> omega

/-- Membership of the south access in the reveal-rule reads. -/
theorem mem_reveal_south (p : Paths) (j i : Int) :
    ((j + 1, i) ∈ revealNeighborAccesses p j i) ↔ p.s = true := by
  cases hn : p.n <;> cases hw : p.w <;> cases hs : p.s <;> cases he : p.e <;>
    simp [revealNeighborAccesses, hn, hw, hs, he, Prod.ext_iff] <;> omega

/-- Membership of the east (column+1) access in the reveal-rule reads. -/
theorem mem_reveal_east (p : Paths) (j i : Int) :
    ((j, i + 1) ∈ revealNeighborAccesses p j i) ↔ p.w = true := by
  cases hn : p.n <;> cases hw : p.w <;> cases hs : p.s <;> cases he : p.e <;>
    simp [revealNeighborAccesses, hn, hw, hs, he, Prod.ext_iff] <;> omega

/-- Membership of the west (column-1) access in the reveal-rule reads. -/
theorem mem_reveal_west (p : Paths) (j i : Int) :
    ((j, i - 1) ∈ revealNeighborAccesses p j i) ↔ p.e = true := by
  cases hn : p.n <;> cases hw : p.w <;> cases hs : p.s <;> cases he : p.e <;>
    simp [revealNeighborAccesses, hn, hw, hs, he, Prod.ext_iff] <;> omega

/-- C1: for a non-start TileId, each of the four open directions — identified
by its neighbor offset in the reveal loop, row-1 north, row+1 south, col+1
east, col-1 west — is read exactly when its probes are PATH: north iff one of
the two top-edge probes `(0,1)`, `(0,5)`; south iff one of the two bottom-edge
probes `(3,1)`, `(3,5)`; east iff the right-edge midpoint probe `(2,7)`; west
iff the left-edge midpoint probe `(2,0)`. -/
theorem c1_open_directions (tilesDict : String → Tile) (h : String)
    (hs : h ≠ START_TILE_HASH) (j i : Int) :
    (((j - 1, i) ∈ revealNeighborAccesses (getTilePaths tilesDict h) j i) ↔
      (probe (tilesDict h) 0 1 || probe (tilesDict h) 0 5) = true) ∧
    (((j + 1, i) ∈ revealNeighborAccesses (getTilePaths tilesDict h) j i) ↔
      (probe (tilesDict h) 3 1 || probe (tilesDict h) 3 5) = true) ∧
    (((j, i + 1) ∈ revealNeighborAccesses (getTilePaths tilesDict h) j i) ↔
      probe (tilesDict h) 2 7 = true) ∧
    (((j, i - 1) ∈ revealNeighborAccesses (getTilePaths tilesDict h) j i) ↔
      probe (tilesDict h) 2 0 = true) := by
  rw [getTilePaths, if_neg hs]
  exact ⟨mem_reveal_north _ j i, mem_reveal_south _ j i,
    mem_reveal_east _ j i, mem_reveal_west _ j i⟩

/-- C1 witness: the junction tile at grid position row 0, column 0. -/
theorem c1_witness :
    ("bbbbbbbc" ≠ START_TILE_HASH) ∧
      ((((0 : Int) - 1, (0 : Int)) ∈
          revealNeighborAccesses (getTilePaths (fun _ => tileJunction) "bbbbbbbc") 0 0) ↔
        (probe tileJunction 0 1 || probe tileJunction 0 5) = true) :=
  ⟨by decide, (c1_open_directions (fun _ => tileJunction) "bbbbbbbc" (by decide) 0 0).1⟩

/-- Hashed-grid lookup commutes with the per-tile hashing of `mapsWithTileHash`. -/
theorem getHashAt_mapsWithTileHash (digest : String → String → String)
    (maps : List GameMap) (mapId r c : Nat) :
    getHashAt (mapsWithTileHash digest maps) mapId r c =
      (getTileAt maps mapId r c).map (tileHashOf digest) := by
  simp only [getHashAt, mapsWithTileHash, getTileAt, List.get?_eq_getElem?, List.getElem?_map]
  rcases hm : maps[mapId]? with _ | m
  · rfl
  · simp only [Option.map_some', Option.some_bind, List.getElem?_map]
    rcases hr : m[r]? with _ | row
    · rfl
    · simp only [Option.map_some', Option.some_bind, List.getElem?_map]

/-- C6: the TileId of a tile is `createHash` of its row-major-flattened state
sequence, and two occurrences with identical matrices at arbitrary positions
of arbitrary maps receive the same TileId in the hashed grids. -/
theorem c6_content_addressed_hash (digest : String → String → String)
    (maps : List GameMap) (m1 r1 c1 m2 r2 c2 : Nat) (t1 t2 : Tile)
    (h1 : getTileAt maps m1 r1 c1 = some t1)
    (h2 : getTileAt maps m2 r2 c2 = some t2)
    (heq : t1 = t2) :
    getHashAt (mapsWithTileHash digest maps) m1 r1 c1 =
        some (createHash digest (String.join t1.flatten)) ∧
    getHashAt (mapsWithTileHash digest maps) m1 r1 c1 =
        getHashAt (mapsWithTileHash digest maps) m2 r2 c2 := by
  subst heq
  rw [getHashAt_mapsWithTileHash, getHashAt_mapsWithTileHash, h1, h2]
  exact ⟨rfl, rfl⟩

/-- C6 witness: the same tile content at two different positions of a concrete
dataset hashes to the same TileId. -/
theorem c6_witness :
    getTileAt [[[tileC3, tileC3]]] 0 0 0 = some tileC3 ∧
    getTileAt [[[tileC3, tileC3]]] 0 0 1 = some tileC3 ∧
    (getHashAt (mapsWithTileHash exDigest [[[tileC3, tileC3]]]) 0 0 0 =
        some (createHash exDigest (String.join tileC3.flatten)) ∧
      getHashAt (mapsWithTileHash exDigest [[[tileC3, tileC3]]]) 0 0 0 =
        getHashAt (mapsWithTileHash exDigest [[[tileC3, tileC3]]]) 0 0 1) :=
  ⟨by decide, by decide,
    c6_content_addressed_hash exDigest [[[tileC3, tileC3]]] 0 0 0 0 0 1 tileC3 tileC3
      (by decide) (by decide) rfl⟩

/-- C7 counterexample: the empty pixel buffer has the wrong length for a map
image, yet `readMap` does not fail — it returns a full 7x5 grid of 4x8 tiles
whose every pixel slot is the `undefined` placeholder. -/
theorem c7_counterexample :
    ([] : List String).length ≠
        MAP_HEIGHT_IN_TILES * TILE_HEIGHT_IN_PIXELS * MAP_WIDTH_IN_PIXELS ∧
    (readMap []).length = MAP_HEIGHT_IN_TILES ∧
    ((readMap []).all fun tileRow =>
      tileRow.length == MAP_WIDTH_IN_TILES &&
        tileRow.all fun tile =>
          tile.length == TILE_HEIGHT_IN_PIXELS &&
            tile.all fun pixelRow =>
              pixelRow.length == TILE_WIDTH_IN_PIXELS &&
                pixelRow.all fun px => px == none) = true := by
  decide

/-- C7 amended: `readMap` checks nothing about the buffer length; for every
buffer it returns the full grid, and the pixel slot of tile `(i, j)` at local
offset `(a, b)` holds the buffer entry at global index
`i * MAP_WIDTH_IN_PIXELS * TILE_HEIGHT_IN_PIXELS + j * TILE_WIDTH_IN_PIXELS +
a * MAP_WIDTH_IN_PIXELS + b`, an out-of-range index yielding the `undefined`
placeholder rather than an error; the width used is the fixed constant
`MAP_WIDTH_IN_PIXELS`, not a parameter of the image. -/
theorem c7_amended_index_arithmetic (buf : List String) (i j a b : Nat)
    (hi : i < MAP_HEIGHT_IN_TILES) (hj : j < MAP_WIDTH_IN_TILES)
    (ha : a < TILE_HEIGHT_IN_PIXELS) (hb : b < TILE_WIDTH_IN_PIXELS) :
    mapEntry (readMap buf) i j a b =
      some (buf.get?
        (i * MAP_WIDTH_IN_PIXELS * TILE_HEIGHT_IN_PIXELS + j * TILE_WIDTH_IN_PIXELS +
          a * MAP_WIDTH_IN_PIXELS + b)) := by
  simp [mapEntry, readMap, List.get?_eq_getElem?, List.getElem?_map, List.getElem?_range,
    hi, hj, ha, hb]

/-- C7 witness: the amended index arithmetic evaluated at the top-left pixel
of the empty buffer. -/
theorem c7_witness :
    (0 < MAP_HEIGHT_IN_TILES ∧ 0 < MAP_WIDTH_IN_TILES ∧
      0 < TILE_HEIGHT_IN_PIXELS ∧ 0 < TILE_WIDTH_IN_PIXELS) ∧
    mapEntry (readMap []) 0 0 0 0 =
      some (([] : List String).get?
        (0 * MAP_WIDTH_IN_PIXELS * TILE_HEIGHT_IN_PIXELS + 0 * TILE_WIDTH_IN_PIXELS +
          0 * MAP_WIDTH_IN_PIXELS + 0)) :=
  ⟨by decide,
    c7_amended_index_arithmetic [] 0 0 0 0 (by decide) (by decide) (by decide) (by decide)⟩

/-- C9: a concrete dataset exhibiting the unguarded neighbor lookup — the
junction tile is a decision point occupying the border cell at row 0, column 0
of a 7x5 map, its north direction is open, and the reveal loop therefore reads
grid row -1, a cell outside the map grid, with no guard in the source. -/
theorem c9_unguarded_neighbor_lookup :
    ((borderMap.get? 0).bind fun row => row.get? 0) = some tileJunction ∧
    borderMap.length = MAP_HEIGHT_IN_TILES ∧
    (borderMap.all fun row => row.length == MAP_WIDTH_IN_TILES) = true ∧
    tileHasExitT tileJunction = true ∧
    (getTilePathsT tileJunction).n = true ∧
    (((0 : Int) - 1, (0 : Int)) ∈ revealNeighborAccesses (getTilePathsT tileJunction) 0 0) ∧
    ¬ (0 ≤ (0 : Int) - 1 ∧ (0 : Int) - 1 < (MAP_HEIGHT_IN_TILES : Int)) := by
  decide

/-- The 7x5 grid holds 35 tiles. -/
theorem tiles_per_map_eq : TILES_PER_MAP = 35 := rfl

/-- The counting loop splits over a concatenation, the second part starting at
the shifted running index. -/
theorem bumpFrom_append (l₁ l₂ : List String) (i0 q : Nat) (x : String) :
    bumpFrom (l₁ ++ l₂) i0 q x = bumpFrom l₁ i0 q x + bumpFrom l₂ (i0 + l₁.length) q x := by
  induction l₁ generalizing i0 with
  | nil => simp [bumpFrom]
  | cons a l ih =>
    simp only [List.cons_append, bumpFrom, List.length_cons, List.append_eq]
    rw [ih (i0 + 1), show i0 + 1 + l.length = i0 + (l.length + 1) from by omega]
    omega

/-- Over a stretch of indices that all land in bucket `d`, the counting loop
counts the matches of `x` when `q = d` and nothing otherwise. -/
theorem bumpFrom_const_div (l : List String) (i0 d q : Nat) (x : String)
    (hq : ∀ k < l.length, (i0 + k) / TILES_PER_MAP = d) :
    bumpFrom l i0 q x = if q = d then l.countP (fun y => y == x) else 0 := by
  induction l generalizing i0 with
  | nil => simp [bumpFrom]
  | cons a l ih =>
    have h0 : i0 / TILES_PER_MAP = d := by simpa using hq 0 (by simp)
    have hrest : ∀ k < l.length, (i0 + 1 + k) / TILES_PER_MAP = d := by
      intro k hk
      have := hq (k + 1) (by simpa using Nat.succ_lt_succ hk)
      rwa [show i0 + (k + 1) = i0 + 1 + k from by omega] at this
    rw [bumpFrom, ih (i0 + 1) hrest, List.countP_cons, h0]
    by_cases hqd : q = d
    · by_cases hax : a = x
      · simp [hqd, hax]
        omega
      · have : (a == x) = false := by simpa using hax
        simp [hqd, hax, this]
    · have hdq : ¬ d = q := fun hc => hqd hc.symm
      simp [hqd, hdq]

/-- The counting loop over the concatenation of 35-element chunks, started at
a chunk boundary, reproduces the per-chunk match counts. -/
theorem bumpFrom_flatten_chunks (C : List (List String)) (d q : Nat) (x : String)
    (hC : ∀ c ∈ C, c.length = TILES_PER_MAP) :
    bumpFrom C.flatten (TILES_PER_MAP * d) q x =
      if q < d then 0 else ((C.get? (q - d)).getD []).countP (fun y => y == x) := by
  induction C generalizing d with
  | nil =>
    rcases Nat.lt_or_ge q d with hlt | hge
    · simp [bumpFrom, hlt]
    · simp [bumpFrom, Nat.not_lt.mpr hge]
  | cons c C ih =>
    have hc : c.length = TILES_PER_MAP := hC c (by simp)
    have hC' : ∀ c' ∈ C, c'.length = TILES_PER_MAP := fun c' hc' => hC c' (by simp [hc'])
    have hdiv : ∀ k < c.length, (TILES_PER_MAP * d + k) / TILES_PER_MAP = d := by
      intro k hk
      rw [hc, tiles_per_map_eq] at hk
      rw [tiles_per_map_eq]
      omega
    rw [List.flatten_cons, bumpFrom_append, bumpFrom_const_div c _ d q x hdiv, hc,
      show TILES_PER_MAP * d + TILES_PER_MAP = TILES_PER_MAP * (d + 1) from by ring,
      ih (d + 1) hC']
    rcases Nat.lt_trichotomy q d with hlt | rfl | hgt
    · simp [hlt, Nat.lt_succ_of_lt hlt, Nat.ne_of_lt hlt]
    · simp [Nat.lt_irrefl, Nat.lt_succ_self]
    · have h1 : ¬ q = d := fun hc' => Nat.lt_irrefl d (hc' ▸ hgt)
      have h2 : ¬ q < d + 1 := by omega
      have h3 : ¬ q < d := by omega
      rw [if_neg h1, if_neg h2, if_neg h3,
        show q - d = (q - (d + 1)) + 1 from by omega, List.get?_cons_succ]
      omega

/-- Indexing a list by the positions of `List.range` recovers mapping over it. -/
theorem range_map_get (C : List (List String)) (g : List String → Nat) :
    (List.range C.length).map (fun q => g ((C.get? q).getD [])) = C.map g := by
  induction C with
  | nil => simp
  | cons c C ih =>
    rw [List.length_cons, List.range_succ_eq_map, List.map_cons, List.map_map]
    exact congrArg (List.cons (g c)) ih

/-- C4: for every dataset whose maps each decode to `TILES_PER_MAP` tiles, the
catalog count of a TileId is the maximum over the maps of the number of
occurrences of that TileId within a single map — the per-bucket counting over
the flattened tile list coincides with per-map occurrence counting, and the
final value is the maximum of those, not their sum. -/
theorem c4_catalog_max_per_map (digest : String → String → String)
    (maps : List GameMap) (x : String)
    (hlen : ∀ m ∈ maps, m.flatten.length = TILES_PER_MAP) :
    hashCount digest maps x =
      mathMax (maps.map fun m => m.flatten.countP fun t => tileHashOf digest t == x) := by
  have hl : hashList digest maps =
      (maps.map fun m => m.flatten.map (tileHashOf digest)).flatten := by
    rw [hashList, tilesOf, List.map_flatten, List.map_map]
    rfl
  have hC : ∀ c ∈ maps.map fun m => m.flatten.map (tileHashOf digest),
      c.length = TILES_PER_MAP := by
    intro c hc
    rcases List.mem_map.mp hc with ⟨m, hm, rfl⟩
    rw [List.length_map]
    exact hlen m hm
  have hcount : ∀ q, hashCounts digest maps q x =
      (((maps.map fun m => m.flatten.map (tileHashOf digest)).get? q).getD []).countP
        (fun y => y == x) := by
    intro q
    have hb := bumpFrom_flatten_chunks (maps.map fun m => m.flatten.map (tileHashOf digest))
      0 q x hC
    rw [Nat.mul_zero] at hb
    simp only [hashCounts, hl, hb, Nat.not_lt_zero, if_false, Nat.sub_zero]
  have hlength : maps.length = (maps.map fun m => m.flatten.map (tileHashOf digest)).length := by
    simp
  rw [hashCount, show ((List.range maps.length).map fun q => hashCounts digest maps q x) =
      (maps.map fun m => m.flatten.map (tileHashOf digest)).map
        (fun c => c.countP fun y => y == x) from by
    rw [← range_map_get (maps.map fun m => m.flatten.map (tileHashOf digest))
        (fun c => c.countP fun y => y == x), ← hlength]
    exact List.map_congr_left fun q _ => hcount q]
  congr 1
  simp [List.map_map, Function.comp_def, List.countP_map]

/-- C4 witness: three maps holding 3, 5 and 2 occurrences of the same tile
give catalog count 5 — the per-map maximum, not the sum 10. -/
theorem c4_witness :
    (∀ m ∈ [exMap1, exMap2, exMap3], m.flatten.length = TILES_PER_MAP) ∧
    hashCount exDigest [exMap1, exMap2, exMap3] "7" =
      mathMax ([exMap1, exMap2, exMap3].map fun m =>
        m.flatten.countP fun t => tileHashOf exDigest t == "7") ∧
    hashCount exDigest [exMap1, exMap2, exMap3] "7" = 5 :=
  ⟨by decide,
    c4_catalog_max_per_map exDigest [exMap1, exMap2, exMap3] "7" (by decide),
    by decide⟩

/-- The total accumulator of source line 177 is the sum of the counts. -/
theorem foldl_add_snd (l : List (String × Nat)) (n : Nat) :
    l.foldl (fun acc p => acc + p.2) n = n + (l.map Prod.snd).sum := by
  induction l generalizing n with
  | nil => simp
  | cons a l ih => simp [ih, Nat.add_assoc]

/-- C8: the report is the line `total: N` — `N` the sum of the per-TileId
counts with the empty tile excluded — then a blank line, then one `id: count`
line per remaining entry; the rendered entry list is a permutation of the
non-empty entries sorted by descending count, and the empty-tile constant
never appears among its ids. -/
theorem c8_report_format (entries : List (String × Nat)) :
    printCount entries =
      "total: " ++
          toString (((entries.filter fun p => decide (p.1 ≠ EMPTY_TILE_HASH)).map Prod.snd).sum) ++
          "\n\n" ++
        String.intercalate "\n" ((sortedEntries entries).map fmtEntry) ∧
    (sortedEntries entries).Sorted countGE ∧
    (sortedEntries entries).Perm (entries.filter fun p => decide (p.1 ≠ EMPTY_TILE_HASH)) ∧
    EMPTY_TILE_HASH ∉ (sortedEntries entries).map Prod.fst := by
  refine ⟨?_, List.sorted_insertionSort countGE _, List.perm_insertionSort countGE _, ?_⟩
  · rw [printCount, totalTiles, foldl_add_snd, Nat.zero_add]
  · intro hmem
    rcases List.mem_map.mp hmem with ⟨p, hp, hfst⟩
    have hp' : p ∈ entries.filter fun p => decide (p.1 ≠ EMPTY_TILE_HASH) :=
      (List.perm_insertionSort countGE _).mem_iff.mp hp
    have hne : p.1 ≠ EMPTY_TILE_HASH := by simpa using List.of_mem_filter hp'
    exact hne hfst
